import Mathlib

/-!
Verification of the environment-flag configuration module
`tools/setup_helpers/build.py`.

The module reads environment variables and exposes seven boolean build
options.  An environment snapshot is modelled as a partial map from
variable names to string values (`none` = unset).
-/

/-- An environment snapshot: a variable name maps to its string value,
or to `none` when the variable is unset. -/
def Env : Type := String → Option String

/-- Lower-casing of a string, character by character. -/
def strLower (s : String) : String := ⟨s.data.map Char.toLower⟩

/-- The recognized affirmative strings (lower-case canonical forms). -/
def affirmative : List String := ["1", "true", "yes", "on"]

/-- The recognized negative strings (lower-case canonical forms). -/
def negativeStrings : List String := ["0", "false", "no", "off"]

/-- Modelled from the spec: `check_env_flag` of `tools/setup_helpers/env.py`
(imported by `build.py` but absent from the provided sources).  Per the spec:
look the name up in the environment; if unset return false; if set, compare
case-insensitively against the affirmative set `{"1","true","yes","on"}`
and return true on a match, false otherwise. -/
def check_env_flag (env : Env) (name : String) : Bool :=
  match env name with
  | none => false
  | some v => affirmative.contains (strLower v)

/-- Modelled from the spec: `check_negative_env_flag` of
`tools/setup_helpers/env.py` (imported by `build.py` but absent from the
provided sources).  Per the spec: look the name up; if unset return false;
if set, compare case-insensitively against the negative set
`{"0","false","no","off"}`, returning true on a match, false otherwise. -/
def check_negative_env_flag (env : Env) (name : String) : Bool :=
  match env name with
  | none => false
  | some v => negativeStrings.contains (strLower v)

/-- The seven configuration outputs exposed by `build.py`. -/
structure BuildConfig where
  BUILD_BINARY : Bool
  BUILD_TEST : Bool
  BUILD_CAFFE2_OPS : Bool
  USE_LEVELDB : Bool
  USE_LMDB : Bool
  USE_OPENCV : Bool
  USE_FFMPEG : Bool
deriving DecidableEq, Repr

/-- The module-level computation of `tools/setup_helpers/build.py`:
each output is computed from the environment exactly as the source
assigns it. -/
def build (env : Env) : BuildConfig :=
  { BUILD_BINARY := check_env_flag env "BUILD_BINARY"
  , BUILD_TEST := ! check_negative_env_flag env "BUILD_TEST"
  , BUILD_CAFFE2_OPS := ! check_negative_env_flag env "BUILD_CAFFE2_OPS"
  , USE_LEVELDB := check_env_flag env "USE_LEVELDB"
  , USE_LMDB := check_env_flag env "USE_LMDB"
  , USE_OPENCV := check_env_flag env "USE_OPENCV"
  , USE_FFMPEG := check_env_flag env "USE_FFMPEG" }

/-- The everywhere-unset environment. -/
def emptyEnv : Env := fun _ => none

/-- `setVar env n v`: the environment `env` with variable `n` set to `v`. -/
def setVar (env : Env) (n v : String) : Env :=
  fun m => if m = n then some v else env m

/-- `unsetVar env n`: the environment `env` with variable `n` removed. -/
def unsetVar (env : Env) (n : String) : Env :=
  fun m => if m = n then none else env m

/-- Every recognized affirmative string is a fixed point of lower-casing. -/
lemma affirmative_lower_fixed : ∀ s ∈ affirmative, strLower s = s := by decide

/-- Every recognized negative string is a fixed point of lower-casing. -/
lemma negativeStrings_lower_fixed : ∀ s ∈ negativeStrings, strLower s = s := by
  decide

/-- C1: Each of the seven exposed configuration outputs equals exactly the
formula the spec's table gives for it, for every environment. -/
theorem build_formulas_match_spec (env : Env) :
    (build env).BUILD_BINARY = check_env_flag env "BUILD_BINARY" ∧
    (build env).BUILD_TEST = (! check_negative_env_flag env "BUILD_TEST") ∧
    (build env).BUILD_CAFFE2_OPS
      = (! check_negative_env_flag env "BUILD_CAFFE2_OPS") ∧
    (build env).USE_LEVELDB = check_env_flag env "USE_LEVELDB" ∧
    (build env).USE_LMDB = check_env_flag env "USE_LMDB" ∧
    (build env).USE_OPENCV = check_env_flag env "USE_OPENCV" ∧
    (build env).USE_FFMPEG = check_env_flag env "USE_FFMPEG" :=
  ⟨rfl, rfl, rfl, rfl, rfl, rfl, rfl⟩

/-- C2: For every variable set in the environment, `check_env_flag` returns
true iff the value matches, case-insensitively, one of the affirmative
strings "1", "true", "yes", "on"; it returns false for every other value. -/
theorem check_env_flag_set_iff (env : Env) (name v : String)
    (h : env name = some v) :
    check_env_flag env name = true ↔
      ∃ s, s ∈ affirmative ∧ strLower v = strLower s := by
  unfold check_env_flag
  rw [h]
  rw [List.elem_iff]
  constructor
  · intro hm
    exact ⟨strLower v, hm, (affirmative_lower_fixed _ hm).symm⟩
  · rintro ⟨s, hs, hls⟩
    rw [hls, affirmative_lower_fixed s hs]
    exact hs

/-- Witness for C2: `check_env_flag` on a concrete environment where
`BUILD_BINARY` is set to the mixed-case value "TRUE". -/
theorem check_env_flag_set_iff_witness :
    check_env_flag (setVar emptyEnv "BUILD_BINARY" "TRUE") "BUILD_BINARY"
        = true ↔
      ∃ s, s ∈ affirmative ∧ strLower "TRUE" = strLower s :=
  check_env_flag_set_iff (setVar emptyEnv "BUILD_BINARY" "TRUE")
    "BUILD_BINARY" "TRUE" rfl

/-- C3: For every variable set in the environment,
`check_negative_env_flag` returns true iff the value matches,
case-insensitively, one of the negative strings "0", "false", "no", "off";
it returns false for every other value. -/
theorem check_negative_env_flag_set_iff (env : Env) (name v : String)
    (h : env name = some v) :
    check_negative_env_flag env name = true ↔
      ∃ s, s ∈ negativeStrings ∧ strLower v = strLower s := by
  unfold check_negative_env_flag
  rw [h]
  rw [List.elem_iff]
  constructor
  · intro hm
    exact ⟨strLower v, hm, (negativeStrings_lower_fixed _ hm).symm⟩
  · rintro ⟨s, hs, hls⟩
    rw [hls, negativeStrings_lower_fixed s hs]
    exact hs

/-- Witness for C3: `check_negative_env_flag` on a concrete environment
where `BUILD_TEST` is set to the mixed-case value "OFF". -/
theorem check_negative_env_flag_set_iff_witness :
    check_negative_env_flag (setVar emptyEnv "BUILD_TEST" "OFF") "BUILD_TEST"
        = true ↔
      ∃ s, s ∈ negativeStrings ∧ strLower "OFF" = strLower s :=
  check_negative_env_flag_set_iff (setVar emptyEnv "BUILD_TEST" "OFF")
    "BUILD_TEST" "OFF" rfl

/-- C4: A variable absent from the environment makes both flag checks
return false; with the whole environment empty, `BUILD_BINARY` and the four
`USE_*` outputs are false while `BUILD_TEST` and `BUILD_CAFFE2_OPS` are
true. -/
theorem unset_flags_default (env : Env) (n : String) (h : env n = none) :
    check_env_flag env n = false ∧
    check_negative_env_flag env n = false ∧
    build emptyEnv =
      { BUILD_BINARY := false, BUILD_TEST := true, BUILD_CAFFE2_OPS := true
      , USE_LEVELDB := false, USE_LMDB := false, USE_OPENCV := false
      , USE_FFMPEG := false } := by
  refine ⟨?_, ?_, rfl⟩
  · unfold check_env_flag
    rw [h]
  · unfold check_negative_env_flag
    rw [h]

/-- Witness for C4: the empty environment, at name `BUILD_BINARY`. -/
theorem unset_flags_default_witness :
    check_env_flag emptyEnv "BUILD_BINARY" = false ∧
    check_negative_env_flag emptyEnv "BUILD_BINARY" = false ∧
    build emptyEnv =
      { BUILD_BINARY := false, BUILD_TEST := true, BUILD_CAFFE2_OPS := true
      , USE_LEVELDB := false, USE_LMDB := false, USE_OPENCV := false
      , USE_FFMPEG := false } :=
  unset_flags_default emptyEnv "BUILD_BINARY" rfl

/-- C5: The Build tests output is true when `BUILD_TEST` is unset and false
when `BUILD_TEST` is set to the string "0". -/
theorem build_test_scenarios (env : Env) (h : env "BUILD_TEST" = some "0") :
    (build emptyEnv).BUILD_TEST = true ∧ (build env).BUILD_TEST = false := by
  refine ⟨rfl, ?_⟩
  show (! check_negative_env_flag env "BUILD_TEST") = false
  unfold check_negative_env_flag
  rw [h]
  decide

/-- Witness for C5: a concrete environment with `BUILD_TEST` set to "0". -/
theorem build_test_scenarios_witness :
    (build emptyEnv).BUILD_TEST = true ∧
    (build (setVar emptyEnv "BUILD_TEST" "0")).BUILD_TEST = false :=
  build_test_scenarios (setVar emptyEnv "BUILD_TEST" "0") rfl

/-- C6: Changing only the letter casing of a variable's value (values with
equal lower-casings) changes the result of neither flag check; in
particular `USE_LEVELDB="YES"` makes the `USE_LEVELDB` output true. -/
theorem value_casing_invariant (env : Env) (n v w : String)
    (hv : strLower v = strLower w) :
    check_env_flag (setVar env n v) n = check_env_flag (setVar env n w) n ∧
    check_negative_env_flag (setVar env n v) n
      = check_negative_env_flag (setVar env n w) n ∧
    (build (setVar emptyEnv "USE_LEVELDB" "YES")).USE_LEVELDB = true := by
  refine ⟨?_, ?_, by decide⟩
  · unfold check_env_flag setVar
    simp [hv]
  · unfold check_negative_env_flag setVar
    simp [hv]

/-- Witness for C6: the values "TrUe" and "TRUE" at name `USE_LMDB`. -/
theorem value_casing_invariant_witness :
    check_env_flag (setVar emptyEnv "USE_LMDB" "TrUe") "USE_LMDB"
      = check_env_flag (setVar emptyEnv "USE_LMDB" "TRUE") "USE_LMDB" ∧
    check_negative_env_flag (setVar emptyEnv "USE_LMDB" "TrUe") "USE_LMDB"
      = check_negative_env_flag (setVar emptyEnv "USE_LMDB" "TRUE")
          "USE_LMDB" ∧
    (build (setVar emptyEnv "USE_LEVELDB" "YES")).USE_LEVELDB = true :=
  value_casing_invariant emptyEnv "USE_LMDB" "TrUe" "TRUE" (by decide)

/-- C7: Flag resolution never fails: for every environment and name, each
check terminates in a boolean (false or true). -/
theorem flag_resolution_total (env : Env) (n : String) :
    (check_env_flag env n = true ∨ check_env_flag env n = false) ∧
    (check_negative_env_flag env n = true ∨
      check_negative_env_flag env n = false) :=
  ⟨Bool.eq_false_or_eq_true _, Bool.eq_false_or_eq_true _⟩

/-- C8: Flag resolution is a pure function of the environment snapshot:
two resolutions over identical environments yield identical values for all
seven outputs. -/
theorem build_pure (env₁ env₂ : Env) (h : ∀ n, env₁ n = env₂ n) :
    build env₁ = build env₂ := by
  have he : env₁ = env₂ := funext h
  rw [he]

/-- Witness for C8: two syntactically different descriptions of the empty
environment resolve to the same configuration. -/
theorem build_pure_witness :
    build emptyEnv = build (unsetVar emptyEnv "BUILD_BINARY") :=
  build_pure emptyEnv (unsetVar emptyEnv "BUILD_BINARY")
    (fun n => by unfold emptyEnv unsetVar; simp)

/-- C9: For each affirmative-style output, a set value outside the
recognized affirmative set yields exactly the same result as leaving the
variable unset: the output is false either way. -/
theorem unrecognized_affirmative_like_unset (env : Env) (v : String)
    (h : affirmative.contains (strLower v) = false) :
    ((build (setVar env "BUILD_BINARY" v)).BUILD_BINARY
        = (build (unsetVar env "BUILD_BINARY")).BUILD_BINARY ∧
      (build (setVar env "BUILD_BINARY" v)).BUILD_BINARY = false) ∧
    ((build (setVar env "USE_LEVELDB" v)).USE_LEVELDB
        = (build (unsetVar env "USE_LEVELDB")).USE_LEVELDB ∧
      (build (setVar env "USE_LEVELDB" v)).USE_LEVELDB = false) ∧
    ((build (setVar env "USE_LMDB" v)).USE_LMDB
        = (build (unsetVar env "USE_LMDB")).USE_LMDB ∧
      (build (setVar env "USE_LMDB" v)).USE_LMDB = false) ∧
    ((build (setVar env "USE_OPENCV" v)).USE_OPENCV
        = (build (unsetVar env "USE_OPENCV")).USE_OPENCV ∧
      (build (setVar env "USE_OPENCV" v)).USE_OPENCV = false) ∧
    ((build (setVar env "USE_FFMPEG" v)).USE_FFMPEG
        = (build (unsetVar env "USE_FFMPEG")).USE_FFMPEG ∧
      (build (setVar env "USE_FFMPEG" v)).USE_FFMPEG = false) := by
  have h' : strLower v ∉ affirmative := by simpa using h
  unfold build check_env_flag setVar unsetVar
  simp [h']

/-- Witness for C9: the explicit negative value "0" behaves like unset for
all five affirmative-style outputs. -/
theorem unrecognized_affirmative_like_unset_witness :
    ((build (setVar emptyEnv "BUILD_BINARY" "0")).BUILD_BINARY
        = (build (unsetVar emptyEnv "BUILD_BINARY")).BUILD_BINARY ∧
      (build (setVar emptyEnv "BUILD_BINARY" "0")).BUILD_BINARY = false) ∧
    ((build (setVar emptyEnv "USE_LEVELDB" "0")).USE_LEVELDB
        = (build (unsetVar emptyEnv "USE_LEVELDB")).USE_LEVELDB ∧
      (build (setVar emptyEnv "USE_LEVELDB" "0")).USE_LEVELDB = false) ∧
    ((build (setVar emptyEnv "USE_LMDB" "0")).USE_LMDB
        = (build (unsetVar emptyEnv "USE_LMDB")).USE_LMDB ∧
      (build (setVar emptyEnv "USE_LMDB" "0")).USE_LMDB = false) ∧
    ((build (setVar emptyEnv "USE_OPENCV" "0")).USE_OPENCV
        = (build (unsetVar emptyEnv "USE_OPENCV")).USE_OPENCV ∧
      (build (setVar emptyEnv "USE_OPENCV" "0")).USE_OPENCV = false) ∧
    ((build (setVar emptyEnv "USE_FFMPEG" "0")).USE_FFMPEG
        = (build (unsetVar emptyEnv "USE_FFMPEG")).USE_FFMPEG ∧
      (build (setVar emptyEnv "USE_FFMPEG" "0")).USE_FFMPEG = false) :=
  unrecognized_affirmative_like_unset emptyEnv "0" (by decide)

/-- C10: For each negative-style output, a set value outside the recognized
negative set — for example the affirmative "1" or "true" — yields exactly
the same result as leaving the variable unset: the output stays true. -/
theorem unrecognized_negative_like_unset (env : Env) (v : String)
    (h : negativeStrings.contains (strLower v) = false) :
    ((build (setVar env "BUILD_TEST" v)).BUILD_TEST
        = (build (unsetVar env "BUILD_TEST")).BUILD_TEST ∧
      (build (setVar env "BUILD_TEST" v)).BUILD_TEST = true) ∧
    ((build (setVar env "BUILD_CAFFE2_OPS" v)).BUILD_CAFFE2_OPS
        = (build (unsetVar env "BUILD_CAFFE2_OPS")).BUILD_CAFFE2_OPS ∧
      (build (setVar env "BUILD_CAFFE2_OPS" v)).BUILD_CAFFE2_OPS = true) := by
  have h' : strLower v ∉ negativeStrings := by simpa using h
  unfold build check_negative_env_flag setVar unsetVar
  simp [h']

/-- Witness for C10: the affirmative value "true" behaves like unset for
both negative-style outputs, leaving them on. -/
theorem unrecognized_negative_like_unset_witness :
    ((build (setVar emptyEnv "BUILD_TEST" "true")).BUILD_TEST
        = (build (unsetVar emptyEnv "BUILD_TEST")).BUILD_TEST ∧
      (build (setVar emptyEnv "BUILD_TEST" "true")).BUILD_TEST = true) ∧
    ((build (setVar emptyEnv "BUILD_CAFFE2_OPS" "true")).BUILD_CAFFE2_OPS
        = (build (unsetVar emptyEnv "BUILD_CAFFE2_OPS")).BUILD_CAFFE2_OPS ∧
      (build
          (setVar emptyEnv "BUILD_CAFFE2_OPS" "true")).BUILD_CAFFE2_OPS
        = true) :=
  unrecognized_negative_like_unset emptyEnv "true" (by decide)
